import Mathlib

/-!
Verification of the BBB crossing-probability model (`bbb_model.py`).

The model is a pure real-arithmetic pipeline: seven transfer functions map
raw physical inputs to [0,1] suitability scores, an aggregator forms a
weighted sum minus a fixed offset and squashes it through a logistic.
We embed the Python floats as real numbers, `math.exp` as `Real.exp`,
`math.log10` as `Real.logb 10`, and the float power `** 0.7` as `Real.rpow`.
Float literals such as `0.0`, `1.0`, `2.0`, `40.0`, `50.0` denote the same
real numbers as the integer numerals `0`, `1`, `2`, `40`, `50` used here.
-/

namespace BBB

noncomputable section

/-- The parameter record from `bbb_model.py` (`BBBInputParams`): eight raw
inputs and eight weights. -/
structure BBBInputParams where
  size_nm : ℝ
  apoe3_affinity : ℝ
  logP : ℝ
  zeta_mV : ℝ
  dose_relative : ℝ
  apoe3_expression : ℝ
  bbb_tightness : ℝ
  inflammation : ℝ
  w_size : ℝ
  w_aff : ℝ
  w_lip : ℝ
  w_charge : ℝ
  w_int : ℝ
  w_inf : ℝ
  w_dose : ℝ
  w_carrier : ℝ

/-- `_gaussian(x, mu, sigma) = exp(-0.5 * ((x - mu) / sigma) ** 2)`. -/
def _gaussian (x mu sigma : ℝ) : ℝ :=
  Real.exp (-0.5 * ((x - mu) / sigma) ^ 2)

/-- `size_transfer_function`: floor-clamp the size to 0.1, take log10,
evaluate a Gaussian centered at log10(50) with sigma 0.25, clamp to [0,1]. -/
def size_transfer_function (size_nm : ℝ) : ℝ :=
  let s := max size_nm 0.1
  let x := Real.logb 10 s
  let mu := Real.logb 10 50
  let sigma := (0.25 : ℝ)
  max 0 (min 1 (_gaussian x mu sigma))

/-- `lipophilicity_transfer_function`: Gaussian centered at 3.0 with
sigma 1.0 applied directly to logP, clamped to [0,1]. -/
def lipophilicity_transfer_function (logP : ℝ) : ℝ :=
  max 0 (min 1 (_gaussian logP 3 1))

/-- `charge_transfer_function`: triangular, `1 - min(max(|z|, 0), 40) / 40`,
clamped to [0,1]. -/
def charge_transfer_function (zeta_mV : ℝ) : ℝ :=
  max 0 (min 1 (1 - min (max |zeta_mV| 0) 40 / 40))

/-- `integrity_transfer_function`: clamp tightness to [0,1], return its
complement. -/
def integrity_transfer_function (bbb_tightness : ℝ) : ℝ :=
  1 - max 0 (min 1 bbb_tightness)

/-- `dose_transfer_function`: clamp dose to 0 from below, saturating ratio
`dose / (2 + dose)` with `K = 2.0`, clamp the result to [0,1]. -/
def dose_transfer_function (dose_relative : ℝ) : ℝ :=
  let dose := max 0 dose_relative
  max 0 (min 1 (dose / (2 + dose)))

/-- `inflammation_transfer_function`: clamp to [0,1], raise to power 0.7. -/
def inflammation_transfer_function (inflammation : ℝ) : ℝ :=
  (max 0 (min 1 inflammation)) ^ (0.7 : ℝ)

/-- The identity clamp `max(0.0, min(1.0, x))` applied inline in
`compute_bbb_probability` to `apoe3_affinity` and `apoe3_expression`. -/
def identity_clamp (x : ℝ) : ℝ :=
  max 0 (min 1 x)

/-- `logistic(z) = 1 / (1 + exp(-z))`. -/
def logistic (z : ℝ) : ℝ :=
  1 / (1 + Real.exp (-z))

/-- The score dictionary returned by `compute_bbb_probability`: its nine
fixed keys become fields. -/
structure ScoreComponents where
  size_score : ℝ
  affinity_score : ℝ
  lipophilicity_score : ℝ
  charge_score : ℝ
  integrity_score : ℝ
  inflammation_score : ℝ
  dose_score : ℝ
  carrier_score : ℝ
  Z : ℝ

/-- `compute_bbb_probability`: compute the eight factor scores, the weighted
sum `Z` minus the global offset 2.0, the logistic probability, and return the
probability together with every component. -/
def compute_bbb_probability (params : BBBInputParams) : ℝ × ScoreComponents :=
  let size_score := size_transfer_function params.size_nm
  let affinity_score := identity_clamp params.apoe3_affinity
  let lipophilicity_score := lipophilicity_transfer_function params.logP
  let charge_score := charge_transfer_function params.zeta_mV
  let integrity_score := integrity_transfer_function params.bbb_tightness
  let inflammation_score := inflammation_transfer_function params.inflammation
  let dose_score := dose_transfer_function params.dose_relative
  let carrier_score := identity_clamp params.apoe3_expression
  let Z :=
    params.w_size * size_score
    + params.w_aff * affinity_score
    + params.w_lip * lipophilicity_score
    + params.w_charge * charge_score
    + params.w_int * integrity_score
    + params.w_inf * inflammation_score
    + params.w_dose * dose_score
    + params.w_carrier * carrier_score
    - 2
  let prob := logistic Z
  (prob,
    { size_score := size_score
      affinity_score := affinity_score
      lipophilicity_score := lipophilicity_score
      charge_score := charge_score
      integrity_score := integrity_score
      inflammation_score := inflammation_score
      dose_score := dose_score
      carrier_score := carrier_score
      Z := Z })

/-- C1: the aggregator returns exactly the logistic of the weighted sum of
the eight factor scores minus the fixed offset 2.0. -/
theorem compute_bbb_probability_formula (p : BBBInputParams) :
    (compute_bbb_probability p).1 =
      1 / (1 + Real.exp (-(
        p.w_size * size_transfer_function p.size_nm
        + p.w_aff * identity_clamp p.apoe3_affinity
        + p.w_lip * lipophilicity_transfer_function p.logP
        + p.w_charge * charge_transfer_function p.zeta_mV
        + p.w_int * integrity_transfer_function p.bbb_tightness
        + p.w_inf * inflammation_transfer_function p.inflammation
        + p.w_dose * dose_transfer_function p.dose_relative
        + p.w_carrier * identity_clamp p.apoe3_expression
        - 2))) :=
  rfl

/-! Helper lemmas on the clamps and the Gaussian. -/

lemma clamp01_nonneg (v : ℝ) : 0 ≤ max 0 (min 1 v) :=
  le_max_left _ _

lemma clamp01_le_one (v : ℝ) : max 0 (min 1 v) ≤ 1 :=
  max_le zero_le_one (min_le_left _ _)

lemma gaussian_pos (x mu sigma : ℝ) : 0 < _gaussian x mu sigma :=
  Real.exp_pos _

lemma gaussian_le_one (x mu sigma : ℝ) : _gaussian x mu sigma ≤ 1 := by
  unfold _gaussian
  rw [Real.exp_le_one_iff]
  nlinarith [sq_nonneg ((x - mu) / sigma)]

lemma clamp01_of_Ioc (v : ℝ) (h0 : 0 < v) (h1 : v ≤ 1) :
    max 0 (min 1 v) = v := by
  rw [min_eq_right h1, max_eq_right h0.le]

lemma integrity_bounds (t : ℝ) :
    0 ≤ integrity_transfer_function t ∧ integrity_transfer_function t ≤ 1 := by
  unfold integrity_transfer_function
  constructor
  · linarith [clamp01_le_one t]
  · linarith [clamp01_nonneg t]

lemma inflammation_bounds (x : ℝ) :
    0 ≤ inflammation_transfer_function x ∧ inflammation_transfer_function x ≤ 1 := by
  unfold inflammation_transfer_function
  exact ⟨Real.rpow_nonneg (clamp01_nonneg x) _,
    Real.rpow_le_one (clamp01_nonneg x) (clamp01_le_one x) (by norm_num)⟩

lemma logistic_pos (z : ℝ) : 0 < logistic z := by
  unfold logistic
  positivity

lemma logistic_lt_one (z : ℝ) : logistic z < 1 := by
  unfold logistic
  rw [div_lt_one (by positivity)]
  linarith [Real.exp_pos (-z)]

/-- C2: every transfer function, and the identity clamp used for affinity and
carrier expression, maps every real input into the closed interval [0,1]. -/
theorem transfer_functions_bounded (x : ℝ) :
    (0 ≤ size_transfer_function x ∧ size_transfer_function x ≤ 1) ∧
    (0 ≤ lipophilicity_transfer_function x ∧ lipophilicity_transfer_function x ≤ 1) ∧
    (0 ≤ charge_transfer_function x ∧ charge_transfer_function x ≤ 1) ∧
    (0 ≤ integrity_transfer_function x ∧ integrity_transfer_function x ≤ 1) ∧
    (0 ≤ dose_transfer_function x ∧ dose_transfer_function x ≤ 1) ∧
    (0 ≤ inflammation_transfer_function x ∧ inflammation_transfer_function x ≤ 1) ∧
    (0 ≤ identity_clamp x ∧ identity_clamp x ≤ 1) :=
  ⟨⟨clamp01_nonneg _, clamp01_le_one _⟩,
   ⟨clamp01_nonneg _, clamp01_le_one _⟩,
   ⟨clamp01_nonneg _, clamp01_le_one _⟩,
   integrity_bounds x,
   ⟨clamp01_nonneg _, clamp01_le_one _⟩,
   inflammation_bounds x,
   ⟨clamp01_nonneg _, clamp01_le_one _⟩⟩

/-- C3: for every parameter record the returned probability lies strictly
between 0 and 1. -/
theorem probability_in_open_unit_interval (p : BBBInputParams) :
    0 < (compute_bbb_probability p).1 ∧ (compute_bbb_probability p).1 < 1 :=
  ⟨logistic_pos _, logistic_lt_one _⟩

/-- C5: the lipophilicity score needs no input clamp: the Gaussian at
mu = 3, sigma = 1 already lands in (0,1] for every real logP. -/
theorem lipophilicity_in_Ioc (logP : ℝ) :
    0 < lipophilicity_transfer_function logP ∧
    lipophilicity_transfer_function logP ≤ 1 := by
  unfold lipophilicity_transfer_function
  rw [clamp01_of_Ioc _ (gaussian_pos _ _ _) (gaussian_le_one _ _ _)]
  exact ⟨gaussian_pos _ _ _, gaussian_le_one _ _ _⟩

lemma charge_unclamped (x : ℝ) (h : |x| ≤ 40) :
    charge_transfer_function x = 1 - |x| / 40 := by
  unfold charge_transfer_function
  have h1 : max |x| 0 = |x| := max_eq_left (abs_nonneg x)
  have h2 : min |x| 40 = |x| := min_eq_left h
  have h3 : min 1 (1 - |x| / 40) = 1 - |x| / 40 := by
    have hd : (0:ℝ) ≤ |x| / 40 := by positivity
    exact min_eq_right (by linarith)
  have h4 : max 0 (1 - |x| / 40) = 1 - |x| / 40 := by
    have hd : |x| / 40 ≤ 1 := by
      rw [div_le_one (by norm_num)]
      exact h
    exact max_eq_right (by linarith)
  rw [h1, h2, h3, h4]

lemma charge_clamped (x : ℝ) (h : 40 ≤ |x|) :
    charge_transfer_function x = 0 := by
  unfold charge_transfer_function
  have h1 : max |x| 0 = |x| := max_eq_left (abs_nonneg x)
  have h2 : min |x| 40 = 40 := min_eq_right h
  rw [h1, h2]
  norm_num

/-- C6: the charge score is 1 at zero charge, 0 at plus or minus 40 mV, and
0 for every charge of magnitude above 40 mV. -/
theorem charge_transfer_values :
    charge_transfer_function 0 = 1 ∧
    charge_transfer_function 40 = 0 ∧
    charge_transfer_function (-40) = 0 ∧
    ∀ x : ℝ, |x| > 40 → charge_transfer_function x = 0 := by
  have e40 : |(40:ℝ)| = 40 := abs_of_nonneg (by norm_num)
  have em40 : |(-40:ℝ)| = 40 := by
    rw [abs_neg]
    exact e40
  refine ⟨?_, ?_, ?_, ?_⟩
  · rw [charge_unclamped 0 (by rw [abs_zero]; norm_num)]
    rw [abs_zero]
    norm_num
  · exact charge_clamped 40 (by rw [e40])
  · exact charge_clamped (-40) (by rw [em40])
  · intro x hx
    exact charge_clamped x hx.le

/-- C6 witness: the fourth conjunct of `charge_transfer_values` applied at
the concrete input 41. -/
theorem charge_transfer_values_witness :
    |(41:ℝ)| > 40 ∧ charge_transfer_function 41 = 0 :=
  ⟨by rw [abs_of_nonneg]; norm_num; norm_num,
   charge_transfer_values.2.2.2 41 (by rw [abs_of_nonneg] <;> norm_num)⟩

lemma dose_core_le_one (a : ℝ) (ha : 0 ≤ a) : a / (2 + a) ≤ 1 := by
  rw [div_le_one (by linarith)]
  linarith

lemma dose_unclamped (a : ℝ) (ha : 0 ≤ a) :
    dose_transfer_function a = a / (2 + a) := by
  simp only [dose_transfer_function]
  have h1 : max 0 a = a := max_eq_right ha
  rw [h1]
  have h2 : min 1 (a / (2 + a)) = a / (2 + a) := min_eq_right (dose_core_le_one a ha)
  rw [h2]
  exact max_eq_right (by positivity)

/-- C7: the dose score is 0 at dose 0, strictly increasing on nonnegative
doses, and exceeds 0.99 at dose 1000. -/
theorem dose_transfer_properties :
    dose_transfer_function 0 = 0 ∧
    (∀ a b : ℝ, 0 ≤ a → a < b → dose_transfer_function a < dose_transfer_function b) ∧
    dose_transfer_function 1000 > 0.99 := by
  refine ⟨?_, ?_, ?_⟩
  · rw [dose_unclamped 0 le_rfl]
    norm_num
  · intro a b ha hab
    rw [dose_unclamped a ha, dose_unclamped b (ha.trans hab.le)]
    rw [div_lt_div_iff₀ (by linarith) (by linarith)]
    nlinarith
  · rw [dose_unclamped 1000 (by norm_num)]
    norm_num

/-- C7 witness: the strict-monotonicity conjunct of
`dose_transfer_properties` applied at the concrete pair (0, 1). -/
theorem dose_transfer_properties_witness :
    (0:ℝ) ≤ 0 ∧ (0:ℝ) < 1 ∧ dose_transfer_function 0 < dose_transfer_function 1 :=
  ⟨le_rfl, by norm_num, dose_transfer_properties.2.1 0 1 le_rfl (by norm_num)⟩

/-- C8: the aggregator is deterministic and stateless: two records with
pairwise equal fields produce identical results. -/
theorem compute_deterministic (p q : BBBInputParams)
    (h1 : p.size_nm = q.size_nm)
    (h2 : p.apoe3_affinity = q.apoe3_affinity)
    (h3 : p.logP = q.logP)
    (h4 : p.zeta_mV = q.zeta_mV)
    (h5 : p.dose_relative = q.dose_relative)
    (h6 : p.apoe3_expression = q.apoe3_expression)
    (h7 : p.bbb_tightness = q.bbb_tightness)
    (h8 : p.inflammation = q.inflammation)
    (h9 : p.w_size = q.w_size)
    (h10 : p.w_aff = q.w_aff)
    (h11 : p.w_lip = q.w_lip)
    (h12 : p.w_charge = q.w_charge)
    (h13 : p.w_int = q.w_int)
    (h14 : p.w_inf = q.w_inf)
    (h15 : p.w_dose = q.w_dose)
    (h16 : p.w_carrier = q.w_carrier) :
    compute_bbb_probability p = compute_bbb_probability q := by
  cases p
  cases q
  simp only at h1 h2 h3 h4 h5 h6 h7 h8 h9 h10 h11 h12 h13 h14 h15 h16
  subst_vars
  rfl

/-- C8 witness: `compute_deterministic` applied to two identical concrete
records. -/
theorem compute_deterministic_witness :
    compute_bbb_probability
      ⟨80, 0.6, 2.5, -5, 3, 0.7, 0.9, 0.2, 2, 2.5, 1, 1, -2, 0.5, 1.5, 2⟩ =
    compute_bbb_probability
      ⟨80, 0.6, 2.5, -5, 3, 0.7, 0.9, 0.2, 2, 2.5, 1, 1, -2, 0.5, 1.5, 2⟩ :=
  compute_deterministic _ _ rfl rfl rfl rfl rfl rfl rfl rfl rfl rfl rfl rfl rfl
    rfl rfl rfl

/-- C9: the returned probability equals the logistic of the returned `Z`
component, and every returned score entry equals the transfer-function value
used inside the weighted sum. -/
theorem compute_components_consistent (p : BBBInputParams) :
    (compute_bbb_probability p).1 = logistic ((compute_bbb_probability p).2.Z) ∧
    (compute_bbb_probability p).2.size_score = size_transfer_function p.size_nm ∧
    (compute_bbb_probability p).2.affinity_score = identity_clamp p.apoe3_affinity ∧
    (compute_bbb_probability p).2.lipophilicity_score = lipophilicity_transfer_function p.logP ∧
    (compute_bbb_probability p).2.charge_score = charge_transfer_function p.zeta_mV ∧
    (compute_bbb_probability p).2.integrity_score = integrity_transfer_function p.bbb_tightness ∧
    (compute_bbb_probability p).2.inflammation_score = inflammation_transfer_function p.inflammation ∧
    (compute_bbb_probability p).2.dose_score = dose_transfer_function p.dose_relative ∧
    (compute_bbb_probability p).2.carrier_score = identity_clamp p.apoe3_expression :=
  ⟨rfl, rfl, rfl, rfl, rfl, rfl, rfl, rfl, rfl⟩

/-! Base-10 logarithm facts used for the size-symmetry claim. -/

lemma logb_ten_thousand : Real.logb 10 1000 = 3 := by
  rw [show (1000:ℝ) = 10 ^ (3:ℕ) by norm_num, Real.logb_pow,
    Real.logb_self_eq_one (by norm_num)]
  norm_num

lemma one_lt_logb_ten_fifty : 1 < Real.logb 10 50 := by
  have h := Real.logb_lt_logb (b := 10) (by norm_num) (x := 10) (by norm_num)
    (y := 50) (by norm_num)
  rwa [Real.logb_self_eq_one (by norm_num)] at h

lemma logb_ten_fifty_lt_two : Real.logb 10 50 < 2 := by
  have h := Real.logb_lt_logb (b := 10) (by norm_num) (x := 50) (by norm_num)
    (y := 100) (by norm_num)
  have h100 : Real.logb 10 100 = 2 := by
    rw [show (100:ℝ) = 10 ^ (2:ℕ) by norm_num, Real.logb_pow,
      Real.logb_self_eq_one (by norm_num)]
    norm_num
  rwa [h100] at h

/-- C4 counterexample: at r = 1/1000 (which satisfies r > 0) the floor-clamp
of the size input to 0.1 fires on the left argument only, and the two sides
of the claimed log-space symmetry differ. -/
theorem size_symmetry_counterexample :
    (0:ℝ) < 1/1000 ∧
    size_transfer_function (50 * (1/1000)) ≠ size_transfer_function (50 / (1/1000)) := by
  refine ⟨by norm_num, ?_⟩
  have hL1 : 1 < Real.logb 10 50 := one_lt_logb_ten_fifty
  have hL2 : Real.logb 10 50 < 2 := logb_ten_fifty_lt_two
  simp only [size_transfer_function]
  have e1 : max (50 * (1/1000) : ℝ) 0.1 = 0.1 := max_eq_right (by norm_num)
  have e2 : max (50 / (1/1000) : ℝ) 0.1 = 50000 := by
    rw [show (50 / (1/1000) : ℝ) = 50000 by norm_num]
    exact max_eq_left (by norm_num)
  rw [e1, e2,
    clamp01_of_Ioc _ (gaussian_pos _ _ _) (gaussian_le_one _ _ _),
    clamp01_of_Ioc _ (gaussian_pos _ _ _) (gaussian_le_one _ _ _)]
  have hlogA : Real.logb 10 (0.1:ℝ) = -1 := by
    rw [show (0.1:ℝ) = (10:ℝ)⁻¹ by norm_num, Real.logb_inv,
      Real.logb_self_eq_one (by norm_num)]
  have hlogB : Real.logb 10 (50000:ℝ) = Real.logb 10 50 + 3 := by
    rw [show (50000:ℝ) = 50 * 1000 by norm_num,
      Real.logb_mul (by norm_num) (by norm_num), logb_ten_thousand]
  rw [hlogA, hlogB]
  unfold _gaussian
  intro heq
  have heq2 := Real.exp_injective heq
  ring_nf at heq2
  nlinarith [heq2, hL1, hL2, sq_nonneg (Real.logb 10 50 + 1)]

/-- C4 amended: the log-space symmetry sizeScore(50 r) = sizeScore(50 / r)
holds for every r in [0.002, 500], the range in which neither 50 r nor
50 / r is floor-clamped to 0.1. -/
theorem size_symmetry_amended (r : ℝ) (h1 : 0.002 ≤ r) (h2 : r ≤ 500) :
    size_transfer_function (50 * r) = size_transfer_function (50 / r) := by
  have hr : 0 < r := lt_of_lt_of_le (by norm_num) h1
  simp only [size_transfer_function]
  have e1 : max (50 * r) 0.1 = 50 * r := max_eq_left (by nlinarith)
  have e2 : max (50 / r) 0.1 = 50 / r := by
    refine max_eq_left ?_
    rw [le_div_iff₀ hr]
    nlinarith
  rw [e1, e2]
  have hlog1 : Real.logb 10 (50 * r) = Real.logb 10 50 + Real.logb 10 r :=
    Real.logb_mul (by norm_num) (ne_of_gt hr)
  have hlog2 : Real.logb 10 (50 / r) = Real.logb 10 50 - Real.logb 10 r :=
    Real.logb_div (by norm_num) (ne_of_gt hr)
  rw [hlog1, hlog2]
  unfold _gaussian
  congr 1
  ring_nf

/-- C4 witness: `size_symmetry_amended` applied at the concrete ratio r = 2. -/
theorem size_symmetry_amended_witness :
    (0.002:ℝ) ≤ 2 ∧ (2:ℝ) ≤ 500 ∧
    size_transfer_function (50 * 2) = size_transfer_function (50 / 2) :=
  ⟨by norm_num, by norm_num, size_symmetry_amended 2 (by norm_num) (by norm_num)⟩

/-- C10: the size score is constant at and below the floor 0.1: any input
at most 0.1 produces the same score as the input 0.1, because the input is
floor-clamped to 0.1 before the logarithm. -/
theorem size_constant_below_floor (s : ℝ) (h : s ≤ 0.1) :
    size_transfer_function s = size_transfer_function 0.1 := by
  simp only [size_transfer_function]
  rw [max_eq_right h, max_self]

/-- C10 witness: `size_constant_below_floor` applied at the concrete input 0. -/
theorem size_constant_below_floor_witness :
    (0:ℝ) ≤ 0.1 ∧ size_transfer_function 0 = size_transfer_function 0.1 :=
  ⟨by norm_num, size_constant_below_floor 0 (by norm_num)⟩

end

end BBB
